import Mathlib

/-
Verification development for the memorytree repository: a shallow
embedding of its gesture-processing layer (src/vision/VisionManager.ts),
its layout state machine (src/core/PhotoSystem.ts, reproduced inside
src/ui/UIManager.ts of this snapshot) and the per-frame interaction loop
(src/main.ts), with theorems settling the frozen claims about them.

Numbers are modelled as real numbers; JavaScript Math.sqrt, Math.min,
Math.max and Math.abs become Real.sqrt, min, max and abs. A per-frame
invocation of the processing pipeline is one tick; performance.now() and
Date.now()*0.001 values are passed in as tick inputs.
-/

namespace MemoryTree

noncomputable section

/-- A 2D vector, as the {x, y} records of VisionManager.ts. -/
structure Vec2 where
  x : ℝ
  y : ℝ
deriving DecidableEq

/-- A 3D vector, as the {x, y, z} records and THREE.Vector3. -/
structure Vec3 where
  x : ℝ
  y : ℝ
  z : ℝ
deriving DecidableEq

/-- A landmark set: the vision model's array of 21 hand keypoints.
VisionManager.ts reads only the fixed indices 0, 4, 5, 8, 12, 16, 17, 20. -/
def Landmarks : Type := Nat → Vec3

/-- The gesture string literals of VisionManager.ts as an exhaustive variant. -/
inductive Gesture where
  | NONE
  | PINCH_START
  | PINCH_END
  | DOUBLE_PINCH
  | FIST
  | SWIPE_LEFT
  | SWIPE_RIGHT
  | SWIPE_UP
  | SWIPE_DOWN
deriving DecidableEq

/-- The HandData interface of VisionManager.ts. -/
structure HandData where
  detected : Bool
  position : Vec3
  pinchDistance : ℝ
  isPinching : Bool
  gesture : Gesture
  velocity : Vec2
  lastPosition : Option Vec3
  rotationSpeed : Vec2
  cursor : Vec2
  lastPinchTime : ℝ
  lastGestureTime : ℝ

/-- VisionManager.createEmptyHandData. -/
def createEmptyHandData : HandData :=
  { detected := false
    position := ⟨0.5, 0.5, 0⟩
    pinchDistance := 0
    isPinching := false
    gesture := Gesture.NONE
    velocity := ⟨0, 0⟩
    lastPosition := none
    rotationSpeed := ⟨0, 0⟩
    cursor := ⟨0.5, 0.5⟩
    lastPinchTime := 0
    lastGestureTime := 0 }

/-- The raw thumb-tip to index-tip distance of updateHandData:
sqrt(dx_pinch*dx_pinch + dy_pinch*dy_pinch + dz_pinch*dz_pinch). -/
def pinchRawDist (landmarks : Landmarks) : ℝ :=
  let thumbTip := landmarks 4
  let indexTip := landmarks 8
  Real.sqrt ((thumbTip.x - indexTip.x) * (thumbTip.x - indexTip.x)
    + (thumbTip.y - indexTip.y) * (thumbTip.y - indexTip.y)
    + (thumbTip.z - indexTip.z) * (thumbTip.z - indexTip.z))

/-- The normalized pinch distance of updateHandData:
Math.min(Math.max((rawDist - minP) / (maxP - minP), 0), 1) with
minP = 0.03, maxP = 0.25. -/
def pinchDistanceOf (landmarks : Landmarks) : ℝ :=
  min (max ((pinchRawDist landmarks - 0.03) / (0.25 - 0.03)) 0) 1

/-- The closed-finger count of updateHandData: over tips [8, 12, 16, 20],
those whose 2D distance to landmark 0 (the palm center) is below 0.15. -/
def closedFingers (landmarks : Landmarks) : Nat :=
  let palmCenter := landmarks 0
  (([8, 12, 16, 20] : List Nat).filter (fun idx =>
    let tip := landmarks idx
    Real.sqrt ((tip.x - palmCenter.x) ^ 2 + (tip.y - palmCenter.y) ^ 2)
      < 0.15)).length

/-- VisionManager.updateHandData as a pure state transformer on one hand;
now is the performance.now() value of the tick. The TS if/else-if blocks
that assign several fields are rendered one field at a time under the
same conditions (rising and falling pinch edge, swipe firing). -/
def updateHandData (hand : HandData) (landmarks : Landmarks) (now : ℝ) :
    HandData :=
  let wrist := landmarks 0
  let indexMCP := landmarks 5
  let pinkyMCP := landmarks 17
  let position : Vec3 :=
    ⟨(wrist.x + indexMCP.x + pinkyMCP.x) / 3,
     (wrist.y + indexMCP.y + pinkyMCP.y) / 3,
     (wrist.z + indexMCP.z + pinkyMCP.z) / 3⟩
  let indexTip := landmarks 8
  let targetCursorX := 1 - indexTip.x
  let targetCursorY := indexTip.y
  let cursor : Vec2 :=
    ⟨hand.cursor.x + (targetCursorX - hand.cursor.x) * 0.2,
     hand.cursor.y + (targetCursorY - hand.cursor.y) * 0.2⟩
  let velocity : Vec2 :=
    match hand.lastPosition with
    | some lastPos =>
        ⟨hand.velocity.x * 0.5 + (position.x - lastPos.x) * 0.5,
         hand.velocity.y * 0.5 + (position.y - lastPos.y) * 0.5⟩
    | none => hand.velocity
  let dx := position.x - 0.5
  let dy := position.y - 0.5
  let rotationSpeed : Vec2 :=
    ⟨if |dx| > 0.1 then (if dx > 0 then dx - 0.1 else dx + 0.1) * 2 else 0,
     if |dy| > 0.1 then (if dy > 0 then dy - 0.1 else dy + 0.1) * 2 else 0⟩
  let pinchDistance := pinchDistanceOf landmarks
  let currentlyPinching : Prop := pinchDistance < 0.1
  let rising : Prop := currentlyPinching ∧ hand.isPinching = false
  let falling : Prop := ¬currentlyPinching ∧ hand.isPinching = true
  let isPinching : Bool :=
    if rising then true else if falling then false else hand.isPinching
  let gesture1 : Gesture :=
    if rising then
      (if now - hand.lastPinchTime < 400 then Gesture.DOUBLE_PINCH
       else Gesture.PINCH_START)
    else if falling then Gesture.PINCH_END
    else Gesture.NONE
  let lastPinchTime := if rising then now else hand.lastPinchTime
  let closed := closedFingers landmarks
  let gesture2 := if 3 ≤ closed then Gesture.FIST else gesture1
  let speedX := velocity.x * 100
  let speedY := velocity.y * 100
  let swipeFired : Prop :=
    gesture2 = Gesture.NONE ∧ isPinching = false ∧ closed < 3 ∧
      now - hand.lastGestureTime > 400 ∧ (|speedX| > 1.5 ∨ |speedY| > 1.5)
  let gesture3 : Gesture :=
    if swipeFired then
      (if |speedX| > |speedY| then
        (if speedX > 0 then Gesture.SWIPE_RIGHT else Gesture.SWIPE_LEFT)
       else
        (if speedY > 0 then Gesture.SWIPE_DOWN else Gesture.SWIPE_UP))
    else gesture2
  let lastGestureTime := if swipeFired then now else hand.lastGestureTime
  { hand with
    position := position
    cursor := cursor
    velocity := velocity
    lastPosition := some position
    rotationSpeed := rotationSpeed
    pinchDistance := pinchDistance
    isPinching := isPinching
    gesture := gesture3
    lastPinchTime := lastPinchTime
    lastGestureTime := lastGestureTime }

/-- VisionManager.resetHand: zero velocity, rotationSpeed and pinchDistance;
every other field (gesture included) is left as it is. -/
def resetHand (hand : HandData) : HandData :=
  { hand with
    velocity := ⟨0, 0⟩
    rotationSpeed := ⟨0, 0⟩
    pinchDistance := 0 }

/-- The dual-hand fields of VisionManager. -/
structure VisionState where
  leftHand : HandData
  rightHand : HandData
  lastHandsDistance : ℝ
  handsDistance : ℝ
  handsDetectedBoth : Bool

/-- The VisionManager constructor state: two empty hands, distances 0. -/
def visionInit : VisionState :=
  { leftHand := createEmptyHandData
    rightHand := createEmptyHandData
    lastHandsDistance := 0
    handsDistance := 0
    handsDetectedBoth := false }

/-- VisionManager.calculateHandsDistance: while both hands are detected,
EMA-blend (factor 0.3) the raw 3D inter-hand distance into handsDistance,
then overwrite handsDistance with the value remapped from [0.15, 0.8] to
[0, 1] and clamped; otherwise leave handsDistance unchanged and clear
handsDetectedBoth. -/
def calculateHandsDistance (s : VisionState) : VisionState :=
  if s.leftHand.detected = true ∧ s.rightHand.detected = true then
    let dx := s.leftHand.position.x - s.rightHand.position.x
    let dy := s.leftHand.position.y - s.rightHand.position.y
    let dz := s.leftHand.position.z - s.rightHand.position.z
    let currentDistance := Real.sqrt (dx * dx + dy * dy + dz * dz)
    let smoothingFactor : ℝ := 0.3
    let blended :=
      s.handsDistance * (1 - smoothingFactor) + currentDistance * smoothingFactor
    let minDistance : ℝ := 0.15
    let maxDistance : ℝ := 0.8
    let normalizedDistance := (blended - minDistance) / (maxDistance - minDistance)
    let clamped := max 0 (min 1 normalizedDistance)
    { s with handsDistance := clamped, handsDetectedBoth := true }
  else
    { s with handsDetectedBoth := false }

/-- One entry of results in VisionManager.update: the handedness category
name string with its landmark set; categoryName "Right" targets the right
hand, anything else the left. -/
def processResult (now : ℝ) (s : VisionState) (r : String × Landmarks) :
    VisionState :=
  if r.1 = "Right" then
    { s with rightHand :=
        updateHandData { s.rightHand with detected := true } r.2 now }
  else
    { s with leftHand :=
        updateHandData { s.leftHand with detected := true } r.2 now }

/-- The per-frame body of VisionManager.update once a video frame is
processed: clear both detected flags, fold the detection results in order,
reset whichever hand ended undetected, then recompute the dual-hand
distance. -/
def visionUpdate (s : VisionState) (results : List (String × Landmarks))
    (now : ℝ) : VisionState :=
  let s1 :=
    { s with leftHand := { s.leftHand with detected := false }
             rightHand := { s.rightHand with detected := false } }
  let s2 := results.foldl (processResult now) s1
  let s3 :=
    if s2.leftHand.detected = false then
      { s2 with leftHand := resetHand s2.leftHand }
    else s2
  let s4 :=
    if s3.rightHand.detected = false then
      { s3 with rightHand := resetHand s3.rightHand }
    else s3
  calculateHandsDistance s4

/-- The LayoutState string union of PhotoSystem.ts. -/
inductive LayoutState where
  | CRYSTAL_BALL
  | SPHERE
  | DETAIL
deriving DecidableEq

/-- A quaternion, as THREE.Quaternion {x, y, z, w}. -/
structure Quat where
  x : ℝ
  y : ℝ
  z : ℝ
  w : ℝ
deriving DecidableEq

/-- The PhotoTransform record of PhotoSystem.ts. -/
structure Transform where
  position : Vec3
  rotation : Quat
  scale : Vec3
deriving DecidableEq

/-- The PhotoSystem state read or written by the interaction logic.
sphereRotation is the THREE.Euler of the source as its (x, y, z) angles.
explodeCount counts ExplosionSystem.explode invocations (the one-shot
explosion side effect). The per-item current transforms and the target
geometry recomputed by PhotoSystem.update for rendering (positions via
applyEuler, orientations via lookAt, interpolation toward targets, the
DETAIL bobbing of the selected target) are pure rendering outputs: no
modelled field and no claim reads them, and they are not tracked here;
targetTransforms is tracked exactly as the layout operations
(setDetailLayout, initTransforms) write it. -/
structure PhotoState where
  count : Nat
  state : LayoutState
  selectedIndex : Int
  hoveredIndex : Int
  sphereScale : ℝ
  sphereRotation : Vec3
  hoverIntensities : List ℝ
  aspectRatios : List ℝ
  spherePositions : List Vec3
  targetTransforms : List Transform
  explodeCount : Nat

/-- PhotoSystem.BASE_RADIUS. -/
def BASE_RADIUS : ℝ := 15

/-- PhotoSystem.setCrystalBallLayout. -/
def setCrystalBallLayout (s : PhotoState) : PhotoState :=
  { s with state := LayoutState.CRYSTAL_BALL
           selectedIndex := -1
           sphereScale := 0.2 }

/-- PhotoSystem.setSphereLayout: fire the explosion only when called in
CRYSTAL_BALL state, then enter SPHERE with sphereScale 1.0. -/
def setSphereLayout (s : PhotoState) : PhotoState :=
  let s1 :=
    if s.state = LayoutState.CRYSTAL_BALL then
      { s with explodeCount := s.explodeCount + 1 }
    else s
  { s1 with state := LayoutState.SPHERE
            selectedIndex := -1
            sphereScale := 1.0 }

/-- The loop of setDetailLayout over all items: every item other than the
selected index is parked at its sphere direction scaled by
BASE_RADIUS * 2.0 with scale collapsed to 0; the selected index entry is
left as previously written. -/
def detailOthers (spherePositions : List Vec3) (index : Nat) :
    Nat → List Transform → List Transform
  | _, [] => []
  | i, t :: rest =>
    (if i = index then t
     else
       let pos := spherePositions.getD i ⟨0, 0, 0⟩
       let r := BASE_RADIUS * 2.0
       { t with position := ⟨pos.x * r, pos.y * r, pos.z * r⟩
                scale := ⟨0, 0, 0⟩ })
      :: detailOthers spherePositions index (i + 1) rest

/-- PhotoSystem.setDetailLayout: silently ignore an out-of-range index;
otherwise enter DETAIL on that index, pin its target in front of the
camera at (0, 0, 32) with identity rotation and scale
(36 * aspectRatio, 36, 1), and park every other target. -/
def setDetailLayout (s : PhotoState) (index : Int) : PhotoState :=
  if index < 0 ∨ (s.count : Int) ≤ index then s
  else
    let idx := index.toNat
    let detailScale : ℝ := 36
    let ar := s.aspectRatios.getD idx 0
    let center : Transform :=
      { position := ⟨0, 0, 32⟩
        rotation := ⟨0, 0, 0, 1⟩
        scale := ⟨detailScale * ar, detailScale, 1⟩ }
    let targets1 := s.targetTransforms.set idx center
    let targets2 := detailOthers s.spherePositions idx 0 targets1
    { s with state := LayoutState.DETAIL
             selectedIndex := index
             targetTransforms := targets2 }

/-- PhotoSystem.setHovered: a no-op outside SPHERE. -/
def setHovered (s : PhotoState) (index : Int) : PhotoState :=
  if s.state ≠ LayoutState.SPHERE then s
  else { s with hoveredIndex := index }

/-- PhotoSystem.rotateSphere: sphereRotation.y += deltaX and
sphereRotation.x += deltaY. -/
def rotateSphere (s : PhotoState) (deltaX deltaY : ℝ) : PhotoState :=
  { s with sphereRotation :=
      ⟨s.sphereRotation.x + deltaY, s.sphereRotation.y + deltaX,
       s.sphereRotation.z⟩ }

/-- PhotoSystem.nextPhoto: in DETAIL, advance with wraparound. -/
def nextPhoto (s : PhotoState) : PhotoState :=
  if s.state ≠ LayoutState.DETAIL then s
  else
    let next := s.selectedIndex + 1
    let next := if (s.count : Int) ≤ next then 0 else next
    setDetailLayout s next

/-- PhotoSystem.prevPhoto: in DETAIL, step back with wraparound. -/
def prevPhoto (s : PhotoState) : PhotoState :=
  if s.state ≠ LayoutState.DETAIL then s
  else
    let prev := s.selectedIndex - 1
    let prev := if prev < 0 then (s.count : Int) - 1 else prev
    setDetailLayout s prev

/-- PhotoSystem.setExpansion: in SPHERE, sphereScale := 0.5 + factor * 2.05. -/
def setExpansion (s : PhotoState) (factor : ℝ) : PhotoState :=
  if s.state = LayoutState.SPHERE then
    { s with sphereScale := 0.5 + factor * 2.05 }
  else s

/-- The per-item hover-intensity loop of PhotoSystem.update: item i is
hovered when i equals hoveredIndex and the state is SPHERE, and its
intensity moves toward 1 or 0 by factor 0.15. -/
def hoverLoop (hoveredIndex : Int) (state : LayoutState) :
    Nat → List ℝ → List ℝ
  | _, [] => []
  | i, h :: rest =>
    let isHovered : Prop := (i : Int) = hoveredIndex ∧ state = LayoutState.SPHERE
    let targetIntensity : ℝ := if isHovered then 1.0 else 0.0
    (h + (targetIntensity - h) * 0.15)
      :: hoverLoop hoveredIndex state (i + 1) rest

/-- PhotoSystem.update restricted to the modelled fields: the auto-rotation
block (CRYSTAL_BALL fast yaw with oscillating roll, SPHERE slow yaw) and
the hover-intensity loop, which runs only under the SPHERE or CRYSTAL_BALL
per-item branch; time is the Date.now() * 0.001 value of the tick.
ExplosionSystem.update touches only particle rendering state. -/
def photoUpdate (s : PhotoState) (time : ℝ) : PhotoState :=
  let s1 :=
    match s.state with
    | LayoutState.CRYSTAL_BALL =>
        { s with sphereRotation :=
            ⟨s.sphereRotation.x, s.sphereRotation.y + 0.05,
             Real.sin time * 0.1⟩ }
    | LayoutState.SPHERE =>
        { s with sphereRotation :=
            ⟨s.sphereRotation.x, s.sphereRotation.y + 0.002,
             s.sphereRotation.z⟩ }
    | LayoutState.DETAIL => s
  if s1.state = LayoutState.SPHERE ∨ s1.state = LayoutState.CRYSTAL_BALL then
    { s1 with hoverIntensities :=
        hoverLoop s1.hoveredIndex s1.state 0 s1.hoverIntensities }
  else s1

/-- PhotoSystem.generateSphereLayout: the Fibonacci-sphere directions. -/
def generateSphereLayout (count : Nat) : List Vec3 :=
  (List.range count).map (fun i =>
    let phi := Real.pi * (3 - Real.sqrt 5)
    let y := 1 - ((i : ℝ) / ((count : ℝ) - 1)) * 2
    let r := Real.sqrt (1 - y * y)
    let theta := phi * (i : ℝ)
    ⟨Real.cos theta * r, y, Real.sin theta * r⟩)

/-- One entry of initTransforms: fresh THREE.Vector3, identity quaternion,
unit scale. -/
def initialTransform : Transform :=
  { position := ⟨0, 0, 0⟩, rotation := ⟨0, 0, 0, 1⟩, scale := ⟨1, 1, 1⟩ }

/-- The PhotoSystem constructor state for a given item count (130 in
main.ts): hover intensities 0, default aspect ratio 0.8, initTransforms,
generateSphereLayout, then setCrystalBallLayout. -/
def photoInit (count : Nat) : PhotoState :=
  setCrystalBallLayout
    { count := count
      state := LayoutState.CRYSTAL_BALL
      selectedIndex := -1
      hoveredIndex := -1
      sphereScale := 1.0
      sphereRotation := ⟨0, 0, 0⟩
      hoverIntensities := List.replicate count 0
      aspectRatios := List.replicate count 0.8
      spherePositions := generateSphereLayout count
      targetTransforms := List.replicate count initialTransform
      explodeCount := 0 }

/-- The input of one frame of the main loop: the detection results and
performance.now() consumed by VisionManager.update, the Date.now() * 0.001
time of PhotoSystem.update, and the raycast outcome (id of the frontmost
intersected mesh, or -1 when nothing is hit). -/
structure TickInput where
  results : List (String × Landmarks)
  now : ℝ
  time : ℝ
  rayHit : Int

/-- The whole session state owned by main.ts. -/
structure Sys where
  vision : VisionState
  photo : PhotoState

/-- The three-state interaction branch of the main loop of main.ts,
taking the vision state and local hoveredIndex of the tick and the photo
state already passed through setHovered. -/
def interactionStep (v : VisionState) (hoveredIndex : Int)
    (p0 : PhotoState) : PhotoState :=
  match p0.state with
  | LayoutState.CRYSTAL_BALL =>
      if v.leftHand.gesture = Gesture.PINCH_START ∨
          v.rightHand.gesture = Gesture.PINCH_START then
        setSphereLayout p0
      else p0
  | LayoutState.SPHERE =>
      let pa :=
        if v.handsDetectedBoth = true then setExpansion p0 v.handsDistance
        else p0
      if v.rightHand.detected = true then
        let pb :=
          if v.rightHand.isPinching = false then
            rotateSphere pa (v.rightHand.rotationSpeed.x * 0.05)
              (v.rightHand.rotationSpeed.y * 0.05)
          else pa
        let pc :=
          if v.rightHand.gesture = Gesture.DOUBLE_PINCH ∧
              hoveredIndex ≠ -1 then
            setDetailLayout pb hoveredIndex
          else pb
        if v.rightHand.gesture = Gesture.PINCH_START ∧ hoveredIndex ≠ -1 then
          setDetailLayout pc hoveredIndex
        else pc
      else
        if v.leftHand.detected = false ∨ v.leftHand.pinchDistance < 0.2 then
          rotateSphere pa 0.002 0
        else pa
  | LayoutState.DETAIL =>
      if v.rightHand.detected = true then
        let pa :=
          if v.rightHand.gesture = Gesture.SWIPE_LEFT then nextPhoto p0
          else if v.rightHand.gesture = Gesture.SWIPE_RIGHT then prevPhoto p0
          else p0
        if v.rightHand.gesture = Gesture.FIST then setSphereLayout pa else pa
      else p0

/-- One frame of the main loop of main.ts: vision update, raycast-derived
hover index (only with a detected right hand in SPHERE), setHovered, the
three-state interaction branch, then PhotoSystem.update. -/
def mainTick (sys : Sys) (inp : TickInput) : Sys :=
  let v := visionUpdate sys.vision inp.results inp.now
  let hoveredIndex : Int :=
    if v.rightHand.detected = true ∧ sys.photo.state = LayoutState.SPHERE then
      inp.rayHit
    else -1
  let p0 := setHovered sys.photo hoveredIndex
  { vision := v
    photo := photoUpdate (interactionStep v hoveredIndex p0) inp.time }

/-- The initial session: fresh VisionManager and a 130-item PhotoSystem. -/
def sysInit : Sys :=
  { vision := visionInit, photo := photoInit 130 }

/-- Running the main loop over a sequence of frame inputs. -/
def runSys (sys : Sys) (inputs : List TickInput) : Sys :=
  inputs.foldl mainTick sys

/-- A pinch edge fires on a tick: the currentlyPinching value computed by
updateHandData (pinchDistance < 0.1) differs from the stored isPinching
flag, i.e. the rising-edge or the falling-edge branch is taken. -/
def pinchEdgeFires (hand : HandData) (lm : Landmarks) : Prop :=
  (pinchDistanceOf lm < 0.1 ∧ hand.isPinching = false) ∨
    (¬(pinchDistanceOf lm < 0.1) ∧ hand.isPinching = true)

/-- The pinch event a firing edge produces in updateHandData: a rising
edge gives DOUBLE_PINCH within 400 ms of the previous rising edge and
PINCH_START otherwise; a falling edge gives PINCH_END. -/
def pinchEdgeGesture (hand : HandData) (lm : Landmarks) (now : ℝ) : Gesture :=
  if pinchDistanceOf lm < 0.1 then
    (if now - hand.lastPinchTime < 400 then Gesture.DOUBLE_PINCH
     else Gesture.PINCH_START)
  else Gesture.PINCH_END

/-- The number of ticks of an input sequence on which the layout goes
from CRYSTAL_BALL before the tick to SPHERE after it. -/
def countTransitions : Sys → List TickInput → Nat
  | _, [] => 0
  | sys, i :: rest =>
    (if sys.photo.state = LayoutState.CRYSTAL_BALL ∧
        (mainTick sys i).photo.state = LayoutState.SPHERE then 1 else 0)
      + countTransitions (mainTick sys i) rest

/-- The clamping invariant of the session: both pinch distances, the
dual-hand distance and every hover intensity lie in [0, 1]. -/
def sysInv (sys : Sys) : Prop :=
  (0 ≤ sys.vision.leftHand.pinchDistance ∧
    sys.vision.leftHand.pinchDistance ≤ 1) ∧
  (0 ≤ sys.vision.rightHand.pinchDistance ∧
    sys.vision.rightHand.pinchDistance ≤ 1) ∧
  (0 ≤ sys.vision.handsDistance ∧ sys.vision.handsDistance ≤ 1) ∧
  (∀ h ∈ sys.photo.hoverIntensities, 0 ≤ h ∧ h ≤ 1)

/-- A landmark set with every keypoint at (0.5, 0.5, 0): the thumb tip
touches the index tip (a pinch) while all four fingertips sit on the
wrist (a closed fist). -/
def fistPinchLm : Landmarks := fun _ => ⟨0.5, 0.5, 0⟩

/-- A landmark set with wrist, index base and pinky base at the origin
and everything else at (0.3, 0.4, 0): thumb tip and index tip touch (a
pinch) while every fingertip is 0.5 away from the wrist (open hand). -/
def pinchOnlyLm : Landmarks := fun i =>
  if i = 0 ∨ i = 5 ∨ i = 17 then ⟨0, 0, 0⟩ else ⟨0.3, 0.4, 0⟩

/-- A landmark set with every keypoint at (0.25, 0.25, 0): a closed fist. -/
def fistLm2 : Landmarks := fun _ => ⟨0.25, 0.25, 0⟩

/-- A landmark set with every keypoint at (0.4, 0.4, 0): a closed fist. -/
def c3lm : Landmarks := fun _ => ⟨0.4, 0.4, 0⟩

/-- A landmark set for a detected, open, centered right hand: palm points
at (0.5, 0.5, 0) so the rotation deadzone gives rotationSpeed (0, 0);
thumb tip at (0.5, 0.5, 0) and all fingertips at (0.2, 0.1, 0), so the
pinch distance clamps to 1 and no finger counts as closed. -/
def c5lm : Landmarks := fun i =>
  if i = 0 ∨ i = 4 ∨ i = 5 ∨ i = 17 then ⟨0.5, 0.5, 0⟩ else ⟨0.2, 0.1, 0⟩

/-- A right hand whose previous pinch rising edge was at time 700. -/
def c2hand : HandData := { createEmptyHandData with lastPinchTime := 700 }

/-- A session in CRYSTAL_BALL whose right hand pinched at time 700. -/
def c2sys : Sys :=
  { vision := { visionInit with rightHand := c2hand }, photo := photoInit 130 }

/-- A frame at time 1000 whose detection results carry one right hand
making the pinchOnlyLm pinch, with no raycast hit. -/
def c2inp : TickInput :=
  { results := [("Right", pinchOnlyLm)], now := 1000, time := 0, rayHit := -1 }

/-- A frame at time 1000 carrying one right hand making the pinchOnlyLm
pinch, with no raycast hit, for a session whose right hand never pinched
before. -/
def c2winp : TickInput :=
  { results := [("Right", pinchOnlyLm)], now := 1000, time := 0, rayHit := -1 }

/-- A session in SPHERE state (entered from the initial CRYSTAL_BALL). -/
def c5sys : Sys :=
  { vision := visionInit, photo := setSphereLayout (photoInit 130) }

/-- A frame at time 1000 whose detection results carry one centered open
right hand (c5lm), with no raycast hit. -/
def c5inp : TickInput :=
  { results := [("Right", c5lm)], now := 1000, time := 0, rayHit := -1 }

/-- A frame at time 2000 with no hand detected and no raycast hit. -/
def c5winp : TickInput :=
  { results := [], now := 2000, time := 7, rayHit := -1 }

/-- A dual-hand state with both hands detected at the same position and a
previously saturated handsDistance of 1. -/
def c4state : VisionState :=
  { leftHand :=
      { createEmptyHandData with
        detected := true
        position := ⟨0.3, 0.7, 0.2⟩ }
    rightHand :=
      { createEmptyHandData with
        detected := true
        position := ⟨0.3, 0.7, 0.2⟩ }
    lastHandsDistance := 0
    handsDistance := 1
    handsDetectedBoth := true }

/-- A dual-hand state with both hands detected at the same position and
handsDistance still at its initial value 0. -/
def c4wstate : VisionState :=
  { leftHand := { createEmptyHandData with detected := true }
    rightHand := { createEmptyHandData with detected := true }
    lastHandsDistance := 0
    handsDistance := 0
    handsDetectedBoth := false }

/-- A dual-hand state with handsDistance 0.42. -/
def c7wstate : VisionState :=
  { leftHand := createEmptyHandData
    rightHand := createEmptyHandData
    lastHandsDistance := 0
    handsDistance := 0.42
    handsDetectedBoth := true }

/-
Theorems. The helper lemmas come first; each claim of the development is
then settled by one theorem (with its witness or counterexample where
required).
-/

theorem sqrt_four : Real.sqrt 4 = 2 := by
  rw [show (4 : ℝ) = 2 ^ 2 by norm_num, Real.sqrt_sq (by norm_num)]

theorem closedFingers_fistPinchLm : closedFingers fistPinchLm = 4 := by
  simp [closedFingers, fistPinchLm]
  norm_num

theorem closedFingers_pinchOnlyLm : closedFingers pinchOnlyLm = 0 := by
  simp [closedFingers, pinchOnlyLm]
  norm_num [sqrt_four]

theorem pinchDistanceOf_fistPinchLm : pinchDistanceOf fistPinchLm < 0.1 := by
  simp [pinchDistanceOf, pinchRawDist, fistPinchLm]
  norm_num

theorem pinchDistanceOf_pinchOnlyLm : pinchDistanceOf pinchOnlyLm < 0.1 := by
  simp [pinchDistanceOf, pinchRawDist, pinchOnlyLm]
  norm_num

theorem updateHandData_detected (hand : HandData) (lm : Landmarks)
    (now : ℝ) : (updateHandData hand lm now).detected = hand.detected := by
  simp [updateHandData]

theorem updateHandData_pinchDistance (hand : HandData) (lm : Landmarks)
    (now : ℝ) :
    (updateHandData hand lm now).pinchDistance = pinchDistanceOf lm := by
  simp [updateHandData]

theorem updateHandData_fist (hand : HandData) (lm : Landmarks) (now : ℝ)
    (h : 3 ≤ closedFingers lm) :
    (updateHandData hand lm now).gesture = Gesture.FIST := by
  simp only [updateHandData]
  simp [h]

theorem processResult_handsDistance (now : ℝ) (s : VisionState)
    (r : String × Landmarks) :
    (processResult now s r).handsDistance = s.handsDistance := by
  unfold processResult
  split <;> rfl

theorem processResult_rightHand_of_ne (now : ℝ) (s : VisionState)
    (r : String × Landmarks) (h : r.1 ≠ "Right") :
    (processResult now s r).rightHand = s.rightHand := by
  unfold processResult
  rw [if_neg h]

theorem processResult_leftHand_of_eq (now : ℝ) (s : VisionState)
    (r : String × Landmarks) (h : r.1 = "Right") :
    (processResult now s r).leftHand = s.leftHand := by
  unfold processResult
  rw [if_pos h]

theorem foldl_processResult_handsDistance (now : ℝ)
    (results : List (String × Landmarks)) :
    ∀ s : VisionState,
      (results.foldl (processResult now) s).handsDistance = s.handsDistance := by
  induction results with
  | nil => intro s; rfl
  | cons r rest ih =>
      intro s
      rw [List.foldl_cons, ih, processResult_handsDistance]

theorem foldl_processResult_rightHand (now : ℝ)
    (results : List (String × Landmarks))
    (h : ∀ r ∈ results, r.1 ≠ "Right") :
    ∀ s : VisionState,
      (results.foldl (processResult now) s).rightHand = s.rightHand := by
  induction results with
  | nil => intro s; rfl
  | cons r rest ih =>
      intro s
      rw [List.foldl_cons, ih (fun x hx => h x (List.mem_cons_of_mem r hx)),
        processResult_rightHand_of_ne now s r (h r (List.mem_cons_self r rest))]

theorem foldl_processResult_leftHand (now : ℝ)
    (results : List (String × Landmarks))
    (h : ∀ r ∈ results, r.1 = "Right") :
    ∀ s : VisionState,
      (results.foldl (processResult now) s).leftHand = s.leftHand := by
  induction results with
  | nil => intro s; rfl
  | cons r rest ih =>
      intro s
      rw [List.foldl_cons, ih (fun x hx => h x (List.mem_cons_of_mem r hx)),
        processResult_leftHand_of_eq now s r (h r (List.mem_cons_self r rest))]

theorem calculateHandsDistance_not_both_distance (s : VisionState)
    (h : s.leftHand.detected = false ∨ s.rightHand.detected = false) :
    (calculateHandsDistance s).handsDistance = s.handsDistance := by
  unfold calculateHandsDistance
  rw [if_neg (by rcases h with h | h <;> simp [h])]

theorem calculateHandsDistance_not_both_flag (s : VisionState)
    (h : s.leftHand.detected = false ∨ s.rightHand.detected = false) :
    (calculateHandsDistance s).handsDetectedBoth = false := by
  unfold calculateHandsDistance
  rw [if_neg (by rcases h with h | h <;> simp [h])]

theorem calculateHandsDistance_rightHand (s : VisionState) :
    (calculateHandsDistance s).rightHand = s.rightHand := by
  unfold calculateHandsDistance
  split <;> rfl

theorem calculateHandsDistance_leftHand (s : VisionState) :
    (calculateHandsDistance s).leftHand = s.leftHand := by
  unfold calculateHandsDistance
  split <;> rfl

theorem visionUpdate_noRight_rightHand (s : VisionState)
    (results : List (String × Landmarks)) (now : ℝ)
    (h : ∀ r ∈ results, r.1 ≠ "Right") :
    (visionUpdate s results now).rightHand =
      resetHand { s.rightHand with detected := false } := by
  unfold visionUpdate
  rw [calculateHandsDistance_rightHand]
  rw [foldl_processResult_rightHand now results h]
  split <;> split <;> simp_all [foldl_processResult_rightHand now results h]

theorem visionUpdate_noRight_handsDistance (s : VisionState)
    (results : List (String × Landmarks)) (now : ℝ)
    (h : ∀ r ∈ results, r.1 ≠ "Right") :
    (visionUpdate s results now).handsDistance = s.handsDistance := by
  unfold visionUpdate
  rw [calculateHandsDistance_not_both_distance]
  · split <;> split <;> simp_all [foldl_processResult_handsDistance]
  · right
    split <;> split <;>
      simp_all [resetHand, foldl_processResult_rightHand now results h]

theorem visionUpdate_noRight_bothFlag (s : VisionState)
    (results : List (String × Landmarks)) (now : ℝ)
    (h : ∀ r ∈ results, r.1 ≠ "Right") :
    (visionUpdate s results now).handsDetectedBoth = false := by
  unfold visionUpdate
  rw [calculateHandsDistance_not_both_flag]
  right
  split <;> split <;>
    simp_all [resetHand, foldl_processResult_rightHand now results h]

theorem visionUpdate_allRight_leftHand (s : VisionState)
    (results : List (String × Landmarks)) (now : ℝ)
    (h : ∀ r ∈ results, r.1 = "Right") :
    (visionUpdate s results now).leftHand =
      resetHand { s.leftHand with detected := false } := by
  unfold visionUpdate
  rw [calculateHandsDistance_leftHand]
  rw [foldl_processResult_leftHand now results h]
  split <;> split <;> simp_all [foldl_processResult_leftHand now results h, resetHand]

theorem visionUpdate_allRight_handsDistance (s : VisionState)
    (results : List (String × Landmarks)) (now : ℝ)
    (h : ∀ r ∈ results, r.1 = "Right") :
    (visionUpdate s results now).handsDistance = s.handsDistance := by
  unfold visionUpdate
  rw [calculateHandsDistance_not_both_distance]
  · split <;> split <;> simp_all [foldl_processResult_handsDistance]
  · left
    split <;> split <;>
      simp_all [resetHand, foldl_processResult_leftHand now results h]

theorem visionUpdate_allRight_bothFlag (s : VisionState)
    (results : List (String × Landmarks)) (now : ℝ)
    (h : ∀ r ∈ results, r.1 = "Right") :
    (visionUpdate s results now).handsDetectedBoth = false := by
  unfold visionUpdate
  rw [calculateHandsDistance_not_both_flag]
  left
  split <;> split <;>
    simp_all [resetHand, foldl_processResult_leftHand now results h]

/-- C1: the claim as frozen is false on the code: in updateHandData the
fist check runs unconditionally after the pinch-edge block and overwrites
its gesture, so a tick can fire a pinch edge and still end with FIST.
Concretely, with every landmark at (0.5, 0.5, 0) a rising pinch edge
fires on an empty hand, yet the final gesture of the tick is FIST. -/
theorem c1_counterexample :
    pinchEdgeFires createEmptyHandData fistPinchLm ∧
      (updateHandData createEmptyHandData fistPinchLm 1000).gesture
        = Gesture.FIST ∧
      Gesture.FIST ≠ Gesture.PINCH_START ∧
      Gesture.FIST ≠ Gesture.DOUBLE_PINCH ∧
      Gesture.FIST ≠ Gesture.PINCH_END := by
  have hpd := pinchDistanceOf_fistPinchLm
  refine ⟨Or.inl ⟨hpd, rfl⟩, ?_, by simp, by simp, by simp⟩
  simp only [updateHandData]
  simp [hpd, closedFingers_fistPinchLm, createEmptyHandData]

/-- C1 (amended): on every tick on which a pinch edge fires, the final
gesture is the pinch event only when fewer than 3 fingertips are within
0.15 of the wrist; with 3 or more closed fingertips the fist
classification overrides the pinch event and the final gesture is FIST. -/
theorem c1_pinch_edge_gesture (hand : HandData) (lm : Landmarks) (now : ℝ)
    (h : pinchEdgeFires hand lm) :
    (updateHandData hand lm now).gesture =
      if 3 ≤ closedFingers lm then Gesture.FIST
      else pinchEdgeGesture hand lm now := by
  simp only [updateHandData, pinchEdgeGesture]
  rcases h with ⟨hpd, hp⟩ | ⟨hpd, hp⟩ <;>
    rcases le_or_lt 3 (closedFingers lm) with hc | hc <;>
    simp [hpd, hp, hc, Nat.not_le.mpr hc]

/-- Witness for C1 (amended): on a pure pinch with open fingers (every
fingertip 0.5 from the wrist) the rising edge of an empty hand at time
1000 yields PINCH_START as the final gesture. -/
theorem c1_pinch_edge_gesture_witness :
    pinchEdgeFires createEmptyHandData pinchOnlyLm ∧
      closedFingers pinchOnlyLm < 3 ∧
      pinchEdgeGesture createEmptyHandData pinchOnlyLm 1000
        = Gesture.PINCH_START ∧
      (updateHandData createEmptyHandData pinchOnlyLm 1000).gesture =
        (if 3 ≤ closedFingers pinchOnlyLm then Gesture.FIST
         else pinchEdgeGesture createEmptyHandData pinchOnlyLm 1000) := by
  have hpd := pinchDistanceOf_pinchOnlyLm
  have hedge : pinchEdgeFires createEmptyHandData pinchOnlyLm :=
    Or.inl ⟨hpd, rfl⟩
  refine ⟨hedge, ?_, ?_, c1_pinch_edge_gesture _ _ _ hedge⟩
  · rw [closedFingers_pinchOnlyLm]; norm_num
  · simp [pinchEdgeGesture, hpd, createEmptyHandData]
    norm_num

theorem closedFingers_c3lm : closedFingers c3lm = 4 := by
  simp [closedFingers, c3lm]
  norm_num

theorem c3_tick1_rightHand :
    (visionUpdate visionInit [("Right", c3lm)] 1000).rightHand =
      updateHandData { createEmptyHandData with detected := true } c3lm
        1000 := by
  unfold visionUpdate
  rw [calculateHandsDistance_rightHand]
  simp [processResult, updateHandData_detected, visionInit, resetHand,
    createEmptyHandData]

/-- C3: the claim as frozen is false on the code: on a tick whose hand
slot is undetected, resetHand zeroes velocity, rotationSpeed and
pinchDistance but does not touch gesture, so the gesture of the last
detected tick persists instead of being forced to NONE. Concretely, a
right hand that classified FIST at time 1000 still reports FIST after the
undetected tick at time 2000. -/
theorem c3_counterexample :
    (visionUpdate visionInit [("Right", c3lm)] 1000).rightHand.gesture
      = Gesture.FIST ∧
    (visionUpdate (visionUpdate visionInit [("Right", c3lm)] 1000)
      [] 2000).rightHand.detected = false ∧
    (visionUpdate (visionUpdate visionInit [("Right", c3lm)] 1000)
      [] 2000).rightHand.gesture = Gesture.FIST ∧
    Gesture.FIST ≠ Gesture.NONE := by
  have hfist :
      (visionUpdate visionInit [("Right", c3lm)] 1000).rightHand.gesture
        = Gesture.FIST := by
    rw [c3_tick1_rightHand]
    exact updateHandData_fist _ _ _ (by rw [closedFingers_c3lm]; norm_num)
  have h2 := visionUpdate_noRight_rightHand
    (visionUpdate visionInit [("Right", c3lm)] 1000) [] 2000 (by simp)
  refine ⟨hfist, ?_, ?_, by simp⟩
  · rw [h2]; simp [resetHand]
  · rw [h2]; simp [resetHand, hfist]

/-- C3 (amended): on every tick on which a hand slot is not detected,
that hand's velocity, rotationSpeed and pinchDistance are forced to 0,
while its gesture — like its position, cursor, lastPinchTime and
lastGestureTime — retains its value from the previous tick (it is not
forced to NONE). A slot is undetected exactly when no detection result
targets it: no "Right"-handed entry for the right slot, only
"Right"-handed entries for the left slot. -/
theorem c3_undetected_slot_retention (s : VisionState)
    (results : List (String × Landmarks)) (now : ℝ) :
    ((∀ r ∈ results, r.1 ≠ "Right") →
      (visionUpdate s results now).rightHand.detected = false ∧
      (visionUpdate s results now).rightHand.velocity = ⟨0, 0⟩ ∧
      (visionUpdate s results now).rightHand.rotationSpeed = ⟨0, 0⟩ ∧
      (visionUpdate s results now).rightHand.pinchDistance = 0 ∧
      (visionUpdate s results now).rightHand.gesture
        = s.rightHand.gesture ∧
      (visionUpdate s results now).rightHand.position
        = s.rightHand.position ∧
      (visionUpdate s results now).rightHand.cursor = s.rightHand.cursor ∧
      (visionUpdate s results now).rightHand.lastPinchTime
        = s.rightHand.lastPinchTime ∧
      (visionUpdate s results now).rightHand.lastGestureTime
        = s.rightHand.lastGestureTime) ∧
    ((∀ r ∈ results, r.1 = "Right") →
      (visionUpdate s results now).leftHand.detected = false ∧
      (visionUpdate s results now).leftHand.velocity = ⟨0, 0⟩ ∧
      (visionUpdate s results now).leftHand.rotationSpeed = ⟨0, 0⟩ ∧
      (visionUpdate s results now).leftHand.pinchDistance = 0 ∧
      (visionUpdate s results now).leftHand.gesture = s.leftHand.gesture ∧
      (visionUpdate s results now).leftHand.position
        = s.leftHand.position ∧
      (visionUpdate s results now).leftHand.cursor = s.leftHand.cursor ∧
      (visionUpdate s results now).leftHand.lastPinchTime
        = s.leftHand.lastPinchTime ∧
      (visionUpdate s results now).leftHand.lastGestureTime
        = s.leftHand.lastGestureTime) := by
  constructor
  · intro h
    rw [visionUpdate_noRight_rightHand s results now h]
    simp [resetHand]
  · intro h
    rw [visionUpdate_allRight_leftHand s results now h]
    simp [resetHand]

/-- Witness for C3 (amended): with no detection result at time 3, the
right hand of a fresh session keeps its gesture and zeroes its motion
fields. -/
theorem c3_undetected_slot_retention_witness :
    (∀ r ∈ ([] : List (String × Landmarks)), r.1 ≠ "Right") ∧
      (visionUpdate visionInit [] 3).rightHand.velocity = ⟨0, 0⟩ ∧
      (visionUpdate visionInit [] 3).rightHand.gesture
        = visionInit.rightHand.gesture := by
  have h := (c3_undetected_slot_retention visionInit [] 3).1 (by simp)
  exact ⟨by simp, h.2.1, h.2.2.2.2.1⟩

/-- C7: on every tick on which at least one hand slot is undetected (no
"Right" entry, or only "Right" entries), handsDistance is left exactly as
it was before the tick and handsDetectedBoth is false afterwards. -/
theorem c7_partial_loss_freeze (s : VisionState)
    (results : List (String × Landmarks)) (now : ℝ)
    (h : (∀ r ∈ results, r.1 ≠ "Right") ∨ (∀ r ∈ results, r.1 = "Right")) :
    (visionUpdate s results now).handsDistance = s.handsDistance ∧
      (visionUpdate s results now).handsDetectedBoth = false := by
  rcases h with h | h
  · exact ⟨visionUpdate_noRight_handsDistance s results now h,
      visionUpdate_noRight_bothFlag s results now h⟩
  · exact ⟨visionUpdate_allRight_handsDistance s results now h,
      visionUpdate_allRight_bothFlag s results now h⟩

/-- Witness for C7: a tick with no detection at all leaves a stored
handsDistance of 0.42 untouched and reports handsDetectedBoth = false. -/
theorem c7_partial_loss_freeze_witness :
    ((∀ r ∈ ([] : List (String × Landmarks)), r.1 ≠ "Right") ∨
      (∀ r ∈ ([] : List (String × Landmarks)), r.1 = "Right")) ∧
      (visionUpdate c7wstate [] 9).handsDistance = 0.42 ∧
      (visionUpdate c7wstate [] 9).handsDetectedBoth = false := by
  have h := c7_partial_loss_freeze c7wstate [] 9 (Or.inl (by simp))
  refine ⟨Or.inl (by simp), ?_, h.2⟩
  rw [h.1]
  simp [c7wstate]

/-- C4: the claim as frozen is false on the code: calculateHandsDistance
overwrites handsDistance with its own renormalized value, so on a tick
with both hands at the same position it blends the raw distance 0 into
the previous (already-normalized) value and renormalizes; from a stored
value of 1 the result is (0.7 * 1 - 0.15) / 0.65 = 11/13, not 0. -/
theorem c4_counterexample :
    c4state.leftHand.detected = true ∧ c4state.rightHand.detected = true ∧
      c4state.leftHand.position = c4state.rightHand.position ∧
      c4state.handsDistance = 1 ∧
      (calculateHandsDistance c4state).handsDistance = 11 / 13 ∧
      (11 : ℝ) / 13 ≠ 0 := by
  refine ⟨rfl, rfl, rfl, rfl, ?_, by norm_num⟩
  unfold calculateHandsDistance
  rw [if_pos ⟨rfl, rfl⟩]
  show max 0 (min 1 _) = _
  norm_num [c4state, createEmptyHandData]

/-- C4 (amended): on a tick with both hands detected at equal positions,
the post-tick handsDistance equals
clamp((0.7 * previous - 0.15) / 0.65, 0, 1); it is 0 exactly when the
previous value was at most 3/14 (in particular from the initial value 0),
not regardless of the previous value. -/
theorem c4_equal_positions_distance (s : VisionState)
    (hl : s.leftHand.detected = true) (hr : s.rightHand.detected = true)
    (hp : s.leftHand.position = s.rightHand.position) :
    (calculateHandsDistance s).handsDistance
        = max 0 (min 1 ((s.handsDistance * 0.7 - 0.15) / 0.65)) ∧
      (s.handsDistance ≤ 3 / 14 →
        (calculateHandsDistance s).handsDistance = 0) := by
  have hx : s.leftHand.position.x - s.rightHand.position.x = 0 := by
    rw [hp]; ring
  have hy : s.leftHand.position.y - s.rightHand.position.y = 0 := by
    rw [hp]; ring
  have hz : s.leftHand.position.z - s.rightHand.position.z = 0 := by
    rw [hp]; ring
  have hmain : (calculateHandsDistance s).handsDistance
      = max 0 (min 1 ((s.handsDistance * 0.7 - 0.15) / 0.65)) := by
    unfold calculateHandsDistance
    rw [if_pos ⟨hl, hr⟩]
    show max 0 (min 1 _) = _
    rw [hx, hy, hz,
      show (0 : ℝ) * 0 + 0 * 0 + 0 * 0 = 0 by ring, Real.sqrt_zero]
    norm_num
  refine ⟨hmain, fun hle => ?_⟩
  rw [hmain]
  have hE : (s.handsDistance * 0.7 - 0.15) / 0.65 ≤ 0 := by
    apply div_nonpos_of_nonpos_of_nonneg _ (by norm_num)
    linarith
  rw [min_eq_right (le_trans hE (by norm_num)),
    max_eq_left hE]

/-- Witness for C4 (amended): from the initial handsDistance 0 a tick
with both hands together does yield 0. -/
theorem c4_equal_positions_distance_witness :
    c4wstate.leftHand.detected = true ∧
      c4wstate.rightHand.detected = true ∧
      c4wstate.leftHand.position = c4wstate.rightHand.position ∧
      c4wstate.handsDistance ≤ 3 / 14 ∧
      (calculateHandsDistance c4wstate).handsDistance = 0 := by
  refine ⟨rfl, rfl, rfl, by norm_num [c4wstate], ?_⟩
  exact (c4_equal_positions_distance c4wstate rfl rfl rfl).2
    (by norm_num [c4wstate])

theorem setHovered_state (s : PhotoState) (i : Int) :
    (setHovered s i).state = s.state := by
  unfold setHovered; split <;> rfl

theorem setHovered_explodeCount (s : PhotoState) (i : Int) :
    (setHovered s i).explodeCount = s.explodeCount := by
  unfold setHovered; split <;> rfl

theorem setHovered_sphereScale (s : PhotoState) (i : Int) :
    (setHovered s i).sphereScale = s.sphereScale := by
  unfold setHovered; split <;> rfl

theorem setHovered_sphereRotation (s : PhotoState) (i : Int) :
    (setHovered s i).sphereRotation = s.sphereRotation := by
  unfold setHovered; split <;> rfl

theorem setHovered_hoverIntensities (s : PhotoState) (i : Int) :
    (setHovered s i).hoverIntensities = s.hoverIntensities := by
  unfold setHovered; split <;> rfl

theorem setSphereLayout_state (s : PhotoState) :
    (setSphereLayout s).state = LayoutState.SPHERE := by
  unfold setSphereLayout; split <;> rfl

theorem setSphereLayout_sphereScale (s : PhotoState) :
    (setSphereLayout s).sphereScale = 1.0 := by
  unfold setSphereLayout; split <;> rfl

theorem setSphereLayout_sphereRotation (s : PhotoState) :
    (setSphereLayout s).sphereRotation = s.sphereRotation := by
  unfold setSphereLayout; split <;> rfl

theorem setSphereLayout_hoverIntensities (s : PhotoState) :
    (setSphereLayout s).hoverIntensities = s.hoverIntensities := by
  unfold setSphereLayout; split <;> rfl

theorem setSphereLayout_explodeCount (s : PhotoState) :
    (setSphereLayout s).explodeCount =
      s.explodeCount +
        (if s.state = LayoutState.CRYSTAL_BALL then 1 else 0) := by
  unfold setSphereLayout; split <;> simp_all

theorem setDetailLayout_explodeCount (s : PhotoState) (i : Int) :
    (setDetailLayout s i).explodeCount = s.explodeCount := by
  unfold setDetailLayout; split <;> rfl

theorem setDetailLayout_sphereScale (s : PhotoState) (i : Int) :
    (setDetailLayout s i).sphereScale = s.sphereScale := by
  unfold setDetailLayout; split <;> rfl

theorem setDetailLayout_sphereRotation (s : PhotoState) (i : Int) :
    (setDetailLayout s i).sphereRotation = s.sphereRotation := by
  unfold setDetailLayout; split <;> rfl

theorem setDetailLayout_hoverIntensities (s : PhotoState) (i : Int) :
    (setDetailLayout s i).hoverIntensities = s.hoverIntensities := by
  unfold setDetailLayout; split <;> rfl

theorem setDetailLayout_state_of_detail (s : PhotoState) (i : Int)
    (h : s.state = LayoutState.DETAIL) :
    (setDetailLayout s i).state = LayoutState.DETAIL := by
  unfold setDetailLayout; split <;> simp [h]

theorem setExpansion_state (s : PhotoState) (f : ℝ) :
    (setExpansion s f).state = s.state := by
  unfold setExpansion; split <;> rfl

theorem setExpansion_explodeCount (s : PhotoState) (f : ℝ) :
    (setExpansion s f).explodeCount = s.explodeCount := by
  unfold setExpansion; split <;> rfl

theorem setExpansion_sphereRotation (s : PhotoState) (f : ℝ) :
    (setExpansion s f).sphereRotation = s.sphereRotation := by
  unfold setExpansion; split <;> rfl

theorem setExpansion_hoverIntensities (s : PhotoState) (f : ℝ) :
    (setExpansion s f).hoverIntensities = s.hoverIntensities := by
  unfold setExpansion; split <;> rfl

theorem rotateSphere_state (s : PhotoState) (dx dy : ℝ) :
    (rotateSphere s dx dy).state = s.state := rfl

theorem rotateSphere_explodeCount (s : PhotoState) (dx dy : ℝ) :
    (rotateSphere s dx dy).explodeCount = s.explodeCount := rfl

theorem rotateSphere_hoverIntensities (s : PhotoState) (dx dy : ℝ) :
    (rotateSphere s dx dy).hoverIntensities = s.hoverIntensities := rfl

theorem nextPhoto_explodeCount (s : PhotoState) :
    (nextPhoto s).explodeCount = s.explodeCount := by
  unfold nextPhoto
  split
  · rfl
  · rw [setDetailLayout_explodeCount]

theorem prevPhoto_explodeCount (s : PhotoState) :
    (prevPhoto s).explodeCount = s.explodeCount := by
  unfold prevPhoto
  split
  · rfl
  · rw [setDetailLayout_explodeCount]

theorem nextPhoto_state_of_detail (s : PhotoState)
    (h : s.state = LayoutState.DETAIL) :
    (nextPhoto s).state = LayoutState.DETAIL := by
  unfold nextPhoto
  split
  · exact h
  · exact setDetailLayout_state_of_detail _ _ h

theorem prevPhoto_state_of_detail (s : PhotoState)
    (h : s.state = LayoutState.DETAIL) :
    (prevPhoto s).state = LayoutState.DETAIL := by
  unfold prevPhoto
  split
  · exact h
  · exact setDetailLayout_state_of_detail _ _ h

theorem nextPhoto_hoverIntensities (s : PhotoState) :
    (nextPhoto s).hoverIntensities = s.hoverIntensities := by
  unfold nextPhoto
  split
  · rfl
  · rw [setDetailLayout_hoverIntensities]

theorem prevPhoto_hoverIntensities (s : PhotoState) :
    (prevPhoto s).hoverIntensities = s.hoverIntensities := by
  unfold prevPhoto
  split
  · rfl
  · rw [setDetailLayout_hoverIntensities]

theorem photoUpdate_state (s : PhotoState) (t : ℝ) :
    (photoUpdate s t).state = s.state := by
  unfold photoUpdate
  rcases hs : s.state <;> simp [hs]

theorem photoUpdate_explodeCount (s : PhotoState) (t : ℝ) :
    (photoUpdate s t).explodeCount = s.explodeCount := by
  unfold photoUpdate
  rcases hs : s.state <;> simp [hs]

theorem photoUpdate_sphereScale (s : PhotoState) (t : ℝ) :
    (photoUpdate s t).sphereScale = s.sphereScale := by
  unfold photoUpdate
  rcases hs : s.state <;> simp [hs]

theorem interactionStep_of_cb (v : VisionState) (hov : Int)
    (p0 : PhotoState) (h : p0.state = LayoutState.CRYSTAL_BALL) :
    interactionStep v hov p0 =
      if v.leftHand.gesture = Gesture.PINCH_START ∨
          v.rightHand.gesture = Gesture.PINCH_START then
        setSphereLayout p0
      else p0 := by
  simp only [interactionStep, h]

theorem interactionStep_of_sphere (v : VisionState) (hov : Int)
    (p0 : PhotoState) (h : p0.state = LayoutState.SPHERE) :
    interactionStep v hov p0 =
      (let pa :=
        if v.handsDetectedBoth = true then setExpansion p0 v.handsDistance
        else p0
      if v.rightHand.detected = true then
        let pb :=
          if v.rightHand.isPinching = false then
            rotateSphere pa (v.rightHand.rotationSpeed.x * 0.05)
              (v.rightHand.rotationSpeed.y * 0.05)
          else pa
        let pc :=
          if v.rightHand.gesture = Gesture.DOUBLE_PINCH ∧
              hov ≠ -1 then
            setDetailLayout pb hov
          else pb
        if v.rightHand.gesture = Gesture.PINCH_START ∧ hov ≠ -1 then
          setDetailLayout pc hov
        else pc
      else
        if v.leftHand.detected = false ∨ v.leftHand.pinchDistance < 0.2 then
          rotateSphere pa 0.002 0
        else pa) := by
  simp only [interactionStep, h]

theorem interactionStep_of_detail (v : VisionState) (hov : Int)
    (p0 : PhotoState) (h : p0.state = LayoutState.DETAIL) :
    interactionStep v hov p0 =
      (if v.rightHand.detected = true then
        let pa :=
          if v.rightHand.gesture = Gesture.SWIPE_LEFT then nextPhoto p0
          else if v.rightHand.gesture = Gesture.SWIPE_RIGHT then prevPhoto p0
          else p0
        if v.rightHand.gesture = Gesture.FIST then setSphereLayout pa
        else pa
      else p0) := by
  simp only [interactionStep, h]

theorem interactionStep_explode (v : VisionState) (hov : Int)
    (p0 : PhotoState) :
    (interactionStep v hov p0).explodeCount =
      p0.explodeCount +
        (if p0.state = LayoutState.CRYSTAL_BALL ∧
            (interactionStep v hov p0).state = LayoutState.SPHERE
         then 1 else 0) := by
  rcases hstate : p0.state with _ | _ | _
  · rw [interactionStep_of_cb v hov p0 hstate]
    split_ifs with h1 h2 h3
    · rw [setSphereLayout_explodeCount, if_pos hstate]
    · exact absurd ⟨rfl, setSphereLayout_state p0⟩ h2
    · exact absurd (hstate.symm.trans h3.2) (by simp)
    · simp
  · rw [interactionStep_of_sphere v hov p0 hstate]
    have hz : ∀ q : PhotoState,
        (if LayoutState.SPHERE = LayoutState.CRYSTAL_BALL ∧
            q.state = LayoutState.SPHERE then (1 : Nat) else 0) = 0 :=
      fun q => by simp
    simp only [hz, Nat.add_zero]
    split_ifs <;>
      simp [setDetailLayout_explodeCount, rotateSphere_explodeCount,
        setExpansion_explodeCount]
  · rw [interactionStep_of_detail v hov p0 hstate]
    have hz : ∀ q : PhotoState,
        (if LayoutState.DETAIL = LayoutState.CRYSTAL_BALL ∧
            q.state = LayoutState.SPHERE then (1 : Nat) else 0) = 0 :=
      fun q => by simp
    simp only [hz, Nat.add_zero]
    split_ifs <;>
      simp [setSphereLayout_explodeCount, nextPhoto_explodeCount,
        prevPhoto_explodeCount, nextPhoto_state_of_detail,
        prevPhoto_state_of_detail, hstate,
        setDetailLayout_explodeCount]

theorem mainTick_explode_step (sys : Sys) (inp : TickInput) :
    (mainTick sys inp).photo.explodeCount =
      sys.photo.explodeCount +
        (if sys.photo.state = LayoutState.CRYSTAL_BALL ∧
            (mainTick sys inp).photo.state = LayoutState.SPHERE
         then 1 else 0) := by
  simp only [mainTick, photoUpdate_explodeCount, photoUpdate_state,
    interactionStep_explode, setHovered_explodeCount, setHovered_state]

theorem runSys_explode (inputs : List TickInput) :
    ∀ sys : Sys,
      (runSys sys inputs).photo.explodeCount =
        sys.photo.explodeCount + countTransitions sys inputs := by
  induction inputs with
  | nil => intro sys; simp [runSys, countTransitions]
  | cons i rest ih =>
      intro sys
      show (runSys (mainTick sys i) rest).photo.explodeCount = _
      rw [ih (mainTick sys i), mainTick_explode_step sys i,
        countTransitions]
      ring

/-- C6: over every tick sequence from the initial session, the explode
side effect has fired exactly as many times as ticks on which the layout
went from CRYSTAL_BALL to SPHERE; in particular it fires on the tick of
each such transition and pinch events arriving while already in SPHERE
never fire it again. -/
theorem c6_explode_once_per_transition (inputs : List TickInput) :
    (runSys sysInit inputs).photo.explodeCount
      = countTransitions sysInit inputs := by
  rw [runSys_explode inputs sysInit]
  simp [sysInit, photoInit, setCrystalBallLayout]

theorem visionUpdate_single_right (s : VisionState) (lm : Landmarks)
    (now : ℝ) :
    (visionUpdate s [("Right", lm)] now).rightHand =
      updateHandData { s.rightHand with detected := true } lm now := by
  unfold visionUpdate
  rw [calculateHandsDistance_rightHand]
  simp [processResult, updateHandData_detected, resetHand]

theorem updateHandData_rising_gesture (hand : HandData) (lm : Landmarks)
    (now : ℝ) (hpd : pinchDistanceOf lm < 0.1) (hp : hand.isPinching = false)
    (hcl : closedFingers lm < 3) :
    (updateHandData hand lm now).gesture =
      if now - hand.lastPinchTime < 400 then Gesture.DOUBLE_PINCH
      else Gesture.PINCH_START := by
  simp only [updateHandData]
  simp [hpd, hp, Nat.not_le.mpr hcl]

/-- C2: the claim as frozen is false on the code: the CRYSTAL_BALL branch
of the main loop reacts only to PINCH_START, not to DOUBLE_PINCH.
Concretely, a right hand whose previous rising pinch edge was at time 700
fires DOUBLE_PINCH at time 1000 while the layout is CRYSTAL_BALL, and the
layout is still CRYSTAL_BALL after the tick. -/
theorem c2_counterexample :
    c2sys.photo.state = LayoutState.CRYSTAL_BALL ∧
      (visionUpdate c2sys.vision c2inp.results c2inp.now).rightHand.gesture
        = Gesture.DOUBLE_PINCH ∧
      (mainTick c2sys c2inp).photo.state = LayoutState.CRYSTAL_BALL := by
  have hst : c2sys.photo.state = LayoutState.CRYSTAL_BALL := by
    simp [c2sys, photoInit, setCrystalBallLayout]
  have hr : (visionUpdate c2sys.vision c2inp.results c2inp.now).rightHand.gesture
      = Gesture.DOUBLE_PINCH := by
    show (visionUpdate c2sys.vision [("Right", pinchOnlyLm)] 1000).rightHand.gesture
      = Gesture.DOUBLE_PINCH
    rw [visionUpdate_single_right]
    rw [updateHandData_rising_gesture _ _ _ pinchDistanceOf_pinchOnlyLm
      (by simp [c2sys, visionInit, c2hand, createEmptyHandData])
      (by rw [closedFingers_pinchOnlyLm]; norm_num)]
    rw [if_pos]
    show (1000 : ℝ) - ({ c2sys.vision.rightHand with detected := true } : HandData).lastPinchTime < 400
    simp [c2sys, visionInit, c2hand, createEmptyHandData]
    norm_num
  have hl : (visionUpdate c2sys.vision c2inp.results c2inp.now).leftHand.gesture
      = Gesture.NONE := by
    rw [visionUpdate_allRight_leftHand _ _ _ (by simp [c2inp])]
    simp [resetHand, c2sys, visionInit, createEmptyHandData]
  refine ⟨hst, hr, ?_⟩
  simp only [mainTick, photoUpdate_state]
  rw [interactionStep_of_cb _ _ _ (by rw [setHovered_state]; exact hst)]
  rw [if_neg]
  · rw [setHovered_state]; exact hst
  · rintro (h | h)
    · rw [hl] at h; exact absurd h (by simp)
    · rw [hr] at h; exact absurd h (by simp)

/-- C2 (amended): for every tick processed while layoutState is
CRYSTAL_BALL, if either hand's gesture that tick is PINCH_START, then
after the tick layoutState is SPHERE and sphereScale equals 1.0 (a
DOUBLE_PINCH, by contrast, is ignored by this branch). -/
theorem c2_pinch_start_to_sphere (sys : Sys) (inp : TickInput)
    (hst : sys.photo.state = LayoutState.CRYSTAL_BALL)
    (hpinch :
      (visionUpdate sys.vision inp.results inp.now).leftHand.gesture
          = Gesture.PINCH_START ∨
        (visionUpdate sys.vision inp.results inp.now).rightHand.gesture
          = Gesture.PINCH_START) :
    (mainTick sys inp).photo.state = LayoutState.SPHERE ∧
      (mainTick sys inp).photo.sphereScale = 1.0 := by
  simp only [mainTick, photoUpdate_state, photoUpdate_sphereScale]
  rw [interactionStep_of_cb _ _ _ (by rw [setHovered_state]; exact hst)]
  rw [if_pos hpinch]
  exact ⟨setSphereLayout_state _, setSphereLayout_sphereScale _⟩

/-- Witness for C2 (amended): from the initial session, a right hand
firing PINCH_START at time 1000 moves the layout to SPHERE with
sphereScale 1.0. -/
theorem c2_pinch_start_to_sphere_witness :
    sysInit.photo.state = LayoutState.CRYSTAL_BALL ∧
      (visionUpdate sysInit.vision c2winp.results c2winp.now).rightHand.gesture
        = Gesture.PINCH_START ∧
      (mainTick sysInit c2winp).photo.state = LayoutState.SPHERE ∧
      (mainTick sysInit c2winp).photo.sphereScale = 1.0 := by
  have hst : sysInit.photo.state = LayoutState.CRYSTAL_BALL := by
    simp [sysInit, photoInit, setCrystalBallLayout]
  have hr : (visionUpdate sysInit.vision c2winp.results c2winp.now).rightHand.gesture
      = Gesture.PINCH_START := by
    show (visionUpdate sysInit.vision [("Right", pinchOnlyLm)] 1000).rightHand.gesture
      = Gesture.PINCH_START
    rw [visionUpdate_single_right]
    rw [updateHandData_rising_gesture _ _ _ pinchDistanceOf_pinchOnlyLm
      (by simp [sysInit, visionInit, createEmptyHandData])
      (by rw [closedFingers_pinchOnlyLm]; norm_num)]
    rw [if_neg]
    show ¬((1000 : ℝ) -
      ({ sysInit.vision.rightHand with detected := true } : HandData).lastPinchTime < 400)
    simp [sysInit, visionInit, createEmptyHandData]
    norm_num
  have h := c2_pinch_start_to_sphere sysInit c2winp hst (Or.inr hr)
  exact ⟨hst, hr, h.1, h.2⟩

theorem photoUpdate_sphereRotation_sphere (s : PhotoState) (t : ℝ)
    (h : s.state = LayoutState.SPHERE) :
    (photoUpdate s t).sphereRotation =
      ⟨s.sphereRotation.x, s.sphereRotation.y + 0.002,
        s.sphereRotation.z⟩ := by
  simp [photoUpdate, h]

theorem interactionStep_sphere_no_detail (v : VisionState) (hov : Int)
    (p0 : PhotoState) (h : p0.state = LayoutState.SPHERE)
    (hhov : hov = -1) :
    (interactionStep v hov p0).state = LayoutState.SPHERE := by
  rw [interactionStep_of_sphere v hov p0 h]
  split_ifs <;>
    simp_all [rotateSphere_state, setExpansion_state, h]

theorem updateHandData_isPinching (hand : HandData) (lm : Landmarks)
    (now : ℝ) :
    (updateHandData hand lm now).isPinching =
      if pinchDistanceOf lm < 0.1 ∧ hand.isPinching = false then true
      else if ¬(pinchDistanceOf lm < 0.1) ∧ hand.isPinching = true then false
      else hand.isPinching := by
  simp [updateHandData]

theorem pinchRawDist_c5lm : pinchRawDist c5lm = 0.5 := by
  unfold pinchRawDist c5lm
  norm_num [sqrt_four]

theorem pinchDistanceOf_c5lm : pinchDistanceOf c5lm = 1 := by
  unfold pinchDistanceOf
  rw [pinchRawDist_c5lm]
  rw [max_eq_left (by norm_num), min_eq_right (by norm_num)]

theorem c5lm_rotationSpeed_x (hand : HandData) (now : ℝ) :
    (updateHandData hand c5lm now).rotationSpeed.x = 0 := by
  simp [updateHandData, c5lm]
  norm_num

theorem mainTick_sphere_rotation (sys : Sys) (inp : TickInput)
    (hst : sys.photo.state = LayoutState.SPHERE)
    (hstay : (mainTick sys inp).photo.state = LayoutState.SPHERE) :
    (mainTick sys inp).photo.sphereRotation.x
        = sys.photo.sphereRotation.x +
          (if (visionUpdate sys.vision inp.results inp.now).rightHand.detected
                = true ∧
              (visionUpdate sys.vision inp.results inp.now).rightHand.isPinching
                = false
           then (visionUpdate sys.vision inp.results
              inp.now).rightHand.rotationSpeed.y * 0.05
           else 0) ∧
      (mainTick sys inp).photo.sphereRotation.y
        = sys.photo.sphereRotation.y +
          (if (visionUpdate sys.vision inp.results inp.now).rightHand.detected
                = true ∧
              (visionUpdate sys.vision inp.results inp.now).rightHand.isPinching
                = false
           then (visionUpdate sys.vision inp.results
              inp.now).rightHand.rotationSpeed.x * 0.05
           else 0) +
          (if ¬((visionUpdate sys.vision inp.results
                inp.now).rightHand.detected = true) ∧
              ((visionUpdate sys.vision inp.results inp.now).leftHand.detected
                  = false ∨
                (visionUpdate sys.vision inp.results
                  inp.now).leftHand.pinchDistance < 0.2)
           then 0.002 else 0) +
          0.002 := by
  simp only [mainTick, photoUpdate_state] at hstay
  have hp0 : ∀ hov : Int, (setHovered sys.photo hov).state
      = LayoutState.SPHERE := fun hov => by rw [setHovered_state]; exact hst
  simp only [mainTick, photoUpdate_sphereRotation_sphere _ _ hstay]
  rw [interactionStep_of_sphere _ _ _ (hp0 _)]
  constructor <;>
    split_ifs <;>
    simp_all [rotateSphere, setDetailLayout_sphereRotation,
      setExpansion_sphereRotation, setHovered_sphereRotation]

/-- C5: the claim as frozen is false on the code: PhotoSystem.update adds
a constant 0.002 yaw on every SPHERE tick in addition to any hand-driven
rotation. Concretely, with a detected, open, centered right hand
(rotationSpeed 0, not mid-pinch) the yaw still changes by 0.002, not by
rotationSpeed.x * 0.05 = 0. -/
theorem c5_counterexample :
    c5sys.photo.state = LayoutState.SPHERE ∧
      c5sys.photo.sphereRotation.y = 0 ∧
      (visionUpdate c5sys.vision c5inp.results c5inp.now).rightHand.detected
        = true ∧
      (visionUpdate c5sys.vision c5inp.results c5inp.now).rightHand.isPinching
        = false ∧
      (visionUpdate c5sys.vision c5inp.results
          c5inp.now).rightHand.rotationSpeed.x * 0.05 = 0 ∧
      (mainTick c5sys c5inp).photo.sphereRotation.y = 0.002 ∧
      (0.002 : ℝ) ≠ 0 := by
  have hst : c5sys.photo.state = LayoutState.SPHERE :=
    setSphereLayout_state _
  have hrot0 : c5sys.photo.sphereRotation.y = 0 := by
    show (setSphereLayout (photoInit 130)).sphereRotation.y = 0
    rw [setSphereLayout_sphereRotation]
    simp [photoInit, setCrystalBallLayout]
  have hdet : (visionUpdate c5sys.vision c5inp.results
      c5inp.now).rightHand.detected = true := by
    show (visionUpdate c5sys.vision [("Right", c5lm)] 1000).rightHand.detected
      = true
    rw [visionUpdate_single_right, updateHandData_detected]
  have hpin : (visionUpdate c5sys.vision c5inp.results
      c5inp.now).rightHand.isPinching = false := by
    show (visionUpdate c5sys.vision [("Right", c5lm)] 1000).rightHand.isPinching
      = false
    rw [visionUpdate_single_right, updateHandData_isPinching]
    rw [pinchDistanceOf_c5lm]
    norm_num
  have hrs : (visionUpdate c5sys.vision c5inp.results
      c5inp.now).rightHand.rotationSpeed.x = 0 := by
    show (visionUpdate c5sys.vision [("Right", c5lm)] 1000).rightHand.rotationSpeed.x
      = 0
    rw [visionUpdate_single_right, c5lm_rotationSpeed_x]
  have hstay : (mainTick c5sys c5inp).photo.state = LayoutState.SPHERE := by
    simp only [mainTick, photoUpdate_state]
    apply interactionStep_sphere_no_detail
    · rw [setHovered_state]; exact hst
    · split <;> rfl
  have h := (mainTick_sphere_rotation c5sys c5inp hst hstay).2
  rw [if_pos ⟨hdet, hpin⟩, if_neg (by rw [hdet]; simp), hrs, hrot0] at h
  refine ⟨hst, hrot0, hdet, hpin, by rw [hrs]; ring, ?_, by norm_num⟩
  rw [h]; ring

/-- C5 (amended): in SPHERE state, on every tick that stays in SPHERE:
the pitch changes by rotationSpeed.y * 0.05 exactly when the right hand
is detected and not mid-pinch (else it is unchanged); the yaw changes by
a constant 0.002 from the update pass, plus rotationSpeed.x * 0.05 when
the right hand is detected and not mid-pinch, plus a further 0.002
auto-yaw when the right hand is undetected — unless the left hand is
detected with pinchDistance at least 0.2 (an open left hand, not a
pinching one), which suppresses only that auto-yaw. -/
theorem c5_sphere_rotation (sys : Sys) (inp : TickInput)
    (hst : sys.photo.state = LayoutState.SPHERE)
    (hstay : (mainTick sys inp).photo.state = LayoutState.SPHERE) :
    (mainTick sys inp).photo.sphereRotation.x
        = sys.photo.sphereRotation.x +
          (if (visionUpdate sys.vision inp.results inp.now).rightHand.detected
                = true ∧
              (visionUpdate sys.vision inp.results inp.now).rightHand.isPinching
                = false
           then (visionUpdate sys.vision inp.results
              inp.now).rightHand.rotationSpeed.y * 0.05
           else 0) ∧
      (mainTick sys inp).photo.sphereRotation.y
        = sys.photo.sphereRotation.y +
          (if (visionUpdate sys.vision inp.results inp.now).rightHand.detected
                = true ∧
              (visionUpdate sys.vision inp.results inp.now).rightHand.isPinching
                = false
           then (visionUpdate sys.vision inp.results
              inp.now).rightHand.rotationSpeed.x * 0.05
           else 0) +
          (if ¬((visionUpdate sys.vision inp.results
                inp.now).rightHand.detected = true) ∧
              ((visionUpdate sys.vision inp.results inp.now).leftHand.detected
                  = false ∨
                (visionUpdate sys.vision inp.results
                  inp.now).leftHand.pinchDistance < 0.2)
           then 0.002 else 0) +
          0.002 :=
  mainTick_sphere_rotation sys inp hst hstay

/-- Witness for C5 (amended): from a SPHERE session with no hand detected
at all, one tick advances the yaw by 0.004 (0.002 main-loop auto-yaw plus
the constant 0.002 of the update pass) and leaves the pitch unchanged. -/
theorem c5_sphere_rotation_witness :
    c5sys.photo.state = LayoutState.SPHERE ∧
      (mainTick c5sys c5winp).photo.state = LayoutState.SPHERE ∧
      (mainTick c5sys c5winp).photo.sphereRotation.x
        = c5sys.photo.sphereRotation.x ∧
      (mainTick c5sys c5winp).photo.sphereRotation.y
        = c5sys.photo.sphereRotation.y + 0.004 := by
  have hst : c5sys.photo.state = LayoutState.SPHERE :=
    setSphereLayout_state _
  have hdet : (visionUpdate c5sys.vision c5winp.results
      c5winp.now).rightHand.detected = false := by
    rw [visionUpdate_noRight_rightHand _ _ _ (by simp [c5winp])]
    simp [resetHand]
  have hldet : (visionUpdate c5sys.vision c5winp.results
      c5winp.now).leftHand.detected = false := by
    rw [visionUpdate_allRight_leftHand _ _ _ (by simp [c5winp])]
    simp [resetHand]
  have hstay : (mainTick c5sys c5winp).photo.state = LayoutState.SPHERE := by
    simp only [mainTick, photoUpdate_state]
    apply interactionStep_sphere_no_detail
    · rw [setHovered_state]; exact hst
    · split <;> rfl
  have h := c5_sphere_rotation c5sys c5winp hst hstay
  have hx := h.1
  have hy := h.2
  rw [if_neg (by rw [hdet]; simp)] at hx
  rw [if_neg (by rw [hdet]; simp),
    if_pos ⟨by rw [hdet]; simp, Or.inl hldet⟩] at hy
  refine ⟨hst, hstay, by rw [hx]; ring, by rw [hy]; ring⟩

theorem pinchDistanceOf_nonneg (lm : Landmarks) :
    0 ≤ pinchDistanceOf lm :=
  le_min (le_max_right _ _) zero_le_one

theorem pinchDistanceOf_le_one (lm : Landmarks) :
    pinchDistanceOf lm ≤ 1 :=
  min_le_right _ _

theorem foldl_pinch_bounds (now : ℝ) (results : List (String × Landmarks)) :
    ∀ s : VisionState,
      (s.leftHand.detected = true →
        0 ≤ s.leftHand.pinchDistance ∧ s.leftHand.pinchDistance ≤ 1) →
      (s.rightHand.detected = true →
        0 ≤ s.rightHand.pinchDistance ∧ s.rightHand.pinchDistance ≤ 1) →
      ((results.foldl (processResult now) s).leftHand.detected = true →
        0 ≤ (results.foldl (processResult now) s).leftHand.pinchDistance ∧
          (results.foldl (processResult now) s).leftHand.pinchDistance ≤ 1) ∧
      ((results.foldl (processResult now) s).rightHand.detected = true →
        0 ≤ (results.foldl (processResult now) s).rightHand.pinchDistance ∧
          (results.foldl (processResult now) s).rightHand.pinchDistance
            ≤ 1) := by
  induction results with
  | nil => intro s hl hr; exact ⟨hl, hr⟩
  | cons r rest ih =>
      intro s hl hr
      rw [List.foldl_cons]
      apply ih
      · unfold processResult
        split
        · exact hl
        · intro _
          rw [updateHandData_pinchDistance]
          exact ⟨pinchDistanceOf_nonneg _, pinchDistanceOf_le_one _⟩
      · unfold processResult
        split
        · intro _
          rw [updateHandData_pinchDistance]
          exact ⟨pinchDistanceOf_nonneg _, pinchDistanceOf_le_one _⟩
        · exact hr

theorem visionUpdate_pinch_bounds (s : VisionState)
    (results : List (String × Landmarks)) (now : ℝ) :
    (0 ≤ (visionUpdate s results now).leftHand.pinchDistance ∧
      (visionUpdate s results now).leftHand.pinchDistance ≤ 1) ∧
    (0 ≤ (visionUpdate s results now).rightHand.pinchDistance ∧
      (visionUpdate s results now).rightHand.pinchDistance ≤ 1) := by
  unfold visionUpdate
  rw [calculateHandsDistance_leftHand, calculateHandsDistance_rightHand]
  have hb := foldl_pinch_bounds now results
    { s with leftHand := { s.leftHand with detected := false }
             rightHand := { s.rightHand with detected := false } }
    (fun h => absurd h (by simp)) (fun h => absurd h (by simp))
  constructor
  · split <;> rename_i h1 <;> split <;> rename_i h2
    · simp [resetHand]
    · simp [resetHand]
    · exact hb.1 (by revert h1; simp)
    · exact hb.1 (by revert h1; simp)
  · split <;> rename_i h1 <;> split <;> rename_i h2
    · simp [resetHand]
    · exact hb.2 (by revert h2; simp)
    · simp [resetHand]
    · exact hb.2 (by revert h2; simp)

theorem foldl_processResult_hands_preserved (now : ℝ)
    (results : List (String × Landmarks)) :
    ∀ s : VisionState,
      (results.foldl (processResult now) s).handsDetectedBoth
        = s.handsDetectedBoth := by
  induction results with
  | nil => intro s; rfl
  | cons r rest ih =>
      intro s
      rw [List.foldl_cons, ih]
      unfold processResult
      split <;> rfl

theorem visionUpdate_handsDistance_bounds (s : VisionState)
    (results : List (String × Landmarks)) (now : ℝ)
    (h : 0 ≤ s.handsDistance ∧ s.handsDistance ≤ 1) :
    0 ≤ (visionUpdate s results now).handsDistance ∧
      (visionUpdate s results now).handsDistance ≤ 1 := by
  unfold visionUpdate
  have hd : ∀ q : VisionState, q.handsDistance = s.handsDistance →
      0 ≤ (calculateHandsDistance q).handsDistance ∧
        (calculateHandsDistance q).handsDistance ≤ 1 := by
    intro q hq
    unfold calculateHandsDistance
    split
    · constructor
      · exact le_max_left _ _
      · exact max_le (by norm_num) (min_le_left _ _)
    · rw [hq] at *
      exact h
  apply hd
  split <;> rename_i h1 <;> split <;> rename_i h2 <;>
    simp [resetHand, foldl_processResult_handsDistance]

theorem hoverLoop_bounds (hov : Int) (st : LayoutState) :
    ∀ (l : List ℝ) (i : Nat),
      (∀ x ∈ l, 0 ≤ x ∧ x ≤ 1) →
      ∀ x ∈ hoverLoop hov st i l, 0 ≤ x ∧ x ≤ 1 := by
  intro l
  induction l with
  | nil => intro i _ x hx; simp [hoverLoop] at hx
  | cons a t ih =>
      intro i hb x hx
      rw [hoverLoop] at hx
      rcases List.mem_cons.mp hx with hx | hx
      · have ha := hb a (List.mem_cons_self a t)
        subst hx
        split_ifs with hcond
        · constructor <;> nlinarith [ha.1, ha.2]
        · constructor <;> nlinarith [ha.1, ha.2]
      · exact ih (i + 1) (fun y hy => hb y (List.mem_cons_of_mem a hy)) x hx

theorem interactionStep_hoverIntensities (v : VisionState) (hov : Int)
    (p0 : PhotoState) :
    (interactionStep v hov p0).hoverIntensities = p0.hoverIntensities := by
  rcases hstate : p0.state with _ | _ | _
  · rw [interactionStep_of_cb v hov p0 hstate]
    split_ifs <;> simp [setSphereLayout_hoverIntensities]
  · rw [interactionStep_of_sphere v hov p0 hstate]
    split_ifs <;>
      simp [setDetailLayout_hoverIntensities, rotateSphere_hoverIntensities,
        setExpansion_hoverIntensities]
  · rw [interactionStep_of_detail v hov p0 hstate]
    split_ifs <;>
      simp [setSphereLayout_hoverIntensities, nextPhoto_hoverIntensities,
        prevPhoto_hoverIntensities]

theorem photoUpdate_hoverIntensities (s : PhotoState) (t : ℝ) :
    (photoUpdate s t).hoverIntensities =
      if s.state = LayoutState.SPHERE ∨ s.state = LayoutState.CRYSTAL_BALL
      then hoverLoop s.hoveredIndex s.state 0 s.hoverIntensities
      else s.hoverIntensities := by
  rcases hs : s.state <;> simp [photoUpdate, hs]

theorem mainTick_sysInv (sys : Sys) (inp : TickInput) (h : sysInv sys) :
    sysInv (mainTick sys inp) := by
  obtain ⟨hl, hr, hd, hh⟩ := h
  have hvis : (mainTick sys inp).vision
      = visionUpdate sys.vision inp.results inp.now := rfl
  have hpb := visionUpdate_pinch_bounds sys.vision inp.results inp.now
  refine ⟨by rw [hvis]; exact hpb.1, by rw [hvis]; exact hpb.2,
    by rw [hvis]; exact visionUpdate_handsDistance_bounds _ _ _ hd, ?_⟩
  have hph : (mainTick sys inp).photo.hoverIntensities
      = (photoUpdate
          (interactionStep (visionUpdate sys.vision inp.results inp.now)
            (if (visionUpdate sys.vision inp.results inp.now).rightHand.detected
                  = true ∧ sys.photo.state = LayoutState.SPHERE
             then inp.rayHit else -1)
            (setHovered sys.photo
              (if (visionUpdate sys.vision inp.results
                    inp.now).rightHand.detected = true ∧
                  sys.photo.state = LayoutState.SPHERE
               then inp.rayHit else -1)))
          inp.time).hoverIntensities := rfl
  rw [hph, photoUpdate_hoverIntensities, interactionStep_hoverIntensities,
    setHovered_hoverIntensities]
  split <;> split <;>
    first
      | exact hoverLoop_bounds _ _ _ _ hh
      | exact hh

theorem sysInv_init : sysInv sysInit := by
  refine ⟨by norm_num [sysInit, visionInit, createEmptyHandData],
    by norm_num [sysInit, visionInit, createEmptyHandData],
    by norm_num [sysInit, visionInit],
    ?_⟩
  intro x hx
  have : x = 0 := by
    have hmem : x ∈ List.replicate 130 (0 : ℝ) := by
      simpa [sysInit, photoInit, setCrystalBallLayout] using hx
    exact List.eq_of_mem_replicate hmem
  rw [this]
  norm_num

/-- C9: starting from the initial session, after every tick sequence both
hands' pinchDistance, the dual-hand handsDistance, and every item's
hoverIntensity lie in [0, 1], whatever the landmark inputs and gestures. -/
theorem c9_clamped_invariant (inputs : List TickInput) :
    sysInv (runSys sysInit inputs) := by
  have hgen : ∀ (l : List TickInput) (sys : Sys), sysInv sys →
      sysInv (runSys sys l) := by
    intro l
    induction l with
    | nil => intro sys h; exact h
    | cons i rest ih =>
        intro sys h
        exact ih (mainTick sys i) (mainTick_sysInv sys i h)
  exact hgen inputs sysInit sysInv_init

/-- C10: FIST is level-triggered and undebounced: whatever the stored
hand state (timestamps included), a tick whose landmarks have at least 3
of the four fingertips within 0.15 of the wrist classifies as FIST. -/
theorem c10_fist_level_triggered (hand : HandData) (lm : Landmarks)
    (now : ℝ) (h : 3 ≤ closedFingers lm) :
    (updateHandData hand lm now).gesture = Gesture.FIST := by
  simp only [updateHandData]
  simp [h]

/-- Witness for C10: a closed fist with every landmark at
(0.25, 0.25, 0) classifies as FIST on an empty hand at time 500. -/
theorem c10_fist_level_triggered_witness :
    3 ≤ closedFingers fistLm2 ∧
      (updateHandData createEmptyHandData fistLm2 500).gesture
        = Gesture.FIST := by
  have h : 3 ≤ closedFingers fistLm2 := by
    simp [closedFingers, fistLm2]
    norm_num
  exact ⟨h, c10_fist_level_triggered createEmptyHandData fistLm2 500 h⟩

/-- C8: the detail-entry operation with an out-of-range index (negative
or at least the item count) is a no-op: the whole photo state, in
particular layoutState, selectedIndex and every target transform, is
unchanged. -/
theorem c8_out_of_range_detail_noop (s : PhotoState) (index : Int)
    (h : index < 0 ∨ (s.count : Int) ≤ index) :
    setDetailLayout s index = s := by
  unfold setDetailLayout
  rw [if_pos h]

/-- Witness for C8: selecting index -1 on the initial 130-item photo
system changes nothing. -/
theorem c8_out_of_range_detail_noop_witness :
    ((-1 : Int) < 0 ∨ (((photoInit 130).count : Int) ≤ -1)) ∧
      setDetailLayout (photoInit 130) (-1) = photoInit 130 :=
  ⟨Or.inl (by norm_num),
    c8_out_of_range_detail_noop (photoInit 130) (-1) (Or.inl (by norm_num))⟩

end

end MemoryTree
